import Mathlib

/-!
# Verification of the `lsi` todo-txt viewer core

A shallow embedding of `src/lsi.py`:

* items are pairs `(1-based line number, raw line text)`;
* `get_priority`, `get_priority_as_number`, `get_bumped_priority` mirror the
  module-level helpers;
* `ViewerState` mirrors the mutable fields of `TodoListViewer`, and the
  operations `apply_filter`, `read_todo_file`, `select_item_id`,
  `refresh_with`, `handle_cancel_key`, `handle_nav_input`,
  `move_selection_into_view` mirror the corresponding methods and
  input-handler branches.

Machine integers are modelled as `Nat`/`Int` (Python integers are unbounded);
code that can raise is modelled with `Option`/`Except`.
-/

namespace Lsi

/-- A todo item, as built by `_read_todo_file`: `(item_id, line)` where
`item_id` is the 1-based line number in `todo.txt` and `line` the raw text of
that line. -/
abbrev Item := Nat × String

/-- Python's `sys.maxsize` on a 64-bit platform, the default `maximum`
argument of `get_priority_as_number`. -/
def sysMaxsize : Nat := 2 ^ 63 - 1

/-- Left-to-right scan for the first occurrence of the pattern
`(<uppercase letter>)`, modelling `re.search(RE_PRIORITY, ...)` with
`RE_PRIORITY = r'\(([A-Z])\)'`; returns the captured letter. -/
def findPriorityAux : List Char → Option Char
  | '(' :: c :: ')' :: rest =>
      if 'A' ≤ c ∧ c ≤ 'Z' then some c else findPriorityAux (c :: ')' :: rest)
  | _ :: rest => findPriorityAux rest
  | [] => none

/-- `get_priority(item)`: the priority of an item as a letter, or `none`
when the line has no `(X)` marker. -/
def get_priority (item : Item) : Option Char :=
  findPriorityAux item.2.data

/-- `get_priority_as_number(item, maximum)`: the priority of an item as a
number (`A` is 0, `B` is 1, ...); `maximum` when the item has no priority. -/
def get_priority_as_number (item : Item) (maximum : Nat) : Nat :=
  match get_priority item with
  | none => maximum
  | some c => min maximum (c.toNat - 'A'.toNat)

/-- The sort key used by `_read_todo_file`: `get_priority_as_number` with its
default `maximum = sys.maxsize`. -/
def rank (item : Item) : Nat :=
  get_priority_as_number item sysMaxsize

/-- `get_bumped_priority(item, delta)`:
`chr(max(ord('A'), min(ord('Z'), ord(priority) - delta)))`.
When the item has no priority, `ord(None)` raises a `TypeError`; the raised
exception is modelled as `none`. -/
def get_bumped_priority (item : Item) (delta : Int) : Option Char :=
  match get_priority item with
  | none => none
  | some c => some (Char.ofNat (max 65 (min 90 ((c.toNat : Int) - delta))).toNat)

/-- `[(index + 1, line) for index, line in enumerate(lines)]`, generalised
over the starting index. -/
def enumItemsFrom (k : Nat) : List String → List Item
  | [] => []
  | l :: ls => (k + 1, l) :: enumItemsFrom (k + 1) ls

/-- `[(index + 1, line) for index, line in enumerate(lines)]`. -/
def enumItems (lines : List String) : List Item :=
  enumItemsFrom 0 lines

/-- The comparison realising Python's stable ascending
`sorted(items, key=get_priority_as_number)`. -/
def rankLE (a b : Item) : Prop :=
  rank a ≤ rank b

instance : DecidableRel rankLE := fun a b => Nat.decLe (rank a) (rank b)

instance : IsTotal Item rankLE := ⟨fun a b => Nat.le_total (rank a) (rank b)⟩

instance : IsTrans Item rankLE := ⟨fun _ _ _ => Nat.le_trans⟩

/-- `sorted(items, key=get_priority_as_number)` applied to the enumerated
lines of the file: the value stored into `_all_items`.  Python's `sorted` is
a stable ascending sort by the key; it is modelled by the (stable) insertion
sort on the rank order. -/
def all_items_of (lines : List String) : List Item :=
  List.insertionSort rankLE (enumItems lines)

/-- Python `str.lower()` restricted to ASCII case folding, as a character
list. -/
def lower (s : String) : List Char :=
  s.data.map Char.toLower

/-- Whether `needle` occurs at the head of `hay`. -/
def matchesAt : List Char → List Char → Bool
  | [], _ => true
  | _ :: _, [] => false
  | a :: as, b :: bs => a = b && matchesAt as bs

/-- Python's substring test `needle in hay` on character lists. -/
def containsSub (needle : List Char) : List Char → Bool
  | [] => matchesAt needle []
  | b :: bs => matchesAt needle (b :: bs) || containsSub needle bs

/-- The per-item test of `_apply_filter`:
`self._filter.lower() in item[1].lower()`. -/
def matchesQuery (q : String) (item : Item) : Bool :=
  containsSub (lower q) (lower item.2)

/-- The list `_apply_filter` stores into `_items`: `_all_items` itself when
the filter is empty, otherwise the sublist of `_all_items` matching the
query. -/
def visible_items_of (q : String) (all : List Item) : List Item :=
  if q = "" then all else all.filter (matchesQuery q)

/-- The mutable state of `TodoListViewer` relevant to the session engine.
`itemsAlias` records whether `_items` and `_all_items` currently reference
the same Python list object (true after `_read_todo_file` assigns
`self._items = self._all_items` or after `_apply_filter` takes its
empty-filter branch), which matters because `_items.clear()` then empties
both. -/
structure ViewerState where
  scrollOffset : Int
  selectedLine : Int
  alive : Bool
  items : List Item
  allItems : List Item
  filter : String
  filtering : Bool
  itemsAlias : Bool
deriving DecidableEq

/-- Python list indexing `l[i]`, with negative indices counting from the
end; `none` models an `IndexError`. -/
def pyGet (l : List Item) (i : Int) : Option Item :=
  if 0 ≤ i then l.get? i.toNat
  else if 0 ≤ (l.length : Int) + i then l.get? ((l.length : Int) + i).toNat
  else none

/-- `selected_item`: `self._items[self._selected_line] if self._items else
None`. -/
def selected_item (s : ViewerState) : Option Item :=
  if s.items = [] then none else pyGet s.items s.selectedLine

/-- `selected_id`: the line number of the currently selected item. -/
def selected_id (s : ViewerState) : Option Nat :=
  (selected_item s).map (·.1)

/-- The loop of `select_item_id`: index of the first item whose id equals
`itemId`. -/
def findItemIndex (itemId : Nat) : List Item → Option Nat
  | [] => none
  | it :: rest =>
      if it.1 = itemId then some 0 else (findItemIndex itemId rest).map (· + 1)

/-- `select_item_id(item_id)`: selects the item with a specific id; when no
visible item has that id (in particular when `item_id` is `None`, which
compares unequal to every integer id) the selection index is untouched. -/
def select_item_id (itemId : Option Nat) (s : ViewerState) : ViewerState :=
  match itemId with
  | none => s
  | some i =>
      match findItemIndex i s.items with
      | some idx => { s with selectedLine := (idx : Int) }
      | none => s

/-- `_apply_filter`: recomputes `_items` from `_all_items` and the current
filter and resets `_selected_line` to 0. -/
def apply_filter (s : ViewerState) : ViewerState :=
  { s with
    items := visible_items_of s.filter s.allItems,
    itemsAlias := s.filter = "",
    selectedLine := 0 }

/-- The successful path of `_read_todo_file`, given the lines read from
`todo.txt`: rebuild `_all_items` (stable-sorted by priority), alias `_items`
to it, and re-apply the filter. -/
def read_todo_file_ok (lines : List String) (s : ViewerState) : ViewerState :=
  apply_filter
    { s with
      allItems := all_items_of lines,
      items := all_items_of lines,
      itemsAlias := true }

/-- `_read_todo_file`, with `contents = none` modelling a file that cannot be
opened/read.  The method first runs `self._items.clear()` (emptying
`_all_items` too when the two alias) and only then opens the file, so on
failure the cleared state is what the raised `IOError` leaves behind
(`Except.error`). -/
def read_todo_file (contents : Option (List String)) (s : ViewerState) :
    Except ViewerState ViewerState :=
  match contents with
  | none =>
      .error { s with items := [], allItems := if s.itemsAlias then [] else s.allItems }
  | some lines => .ok (read_todo_file_ok lines s)

/-- `refresh` (and the post-dispatch re-read) on a readable file:
`retain_selection` around `_read_todo_file` — save `selected_id`, re-read,
then `select_item_id` the saved id. -/
def refresh_with (lines : List String) (s : ViewerState) : ViewerState :=
  select_item_id (selected_id s) (read_todo_file_ok lines s)

/-- The `q`/`ESC` branch of `_handle_input`: when a filter is active, clear
it inside `retain_selection`; otherwise close the viewer. -/
def handle_cancel_key (s : ViewerState) : ViewerState :=
  if s.filter ≠ "" then
    select_item_id (selected_id s) (apply_filter { s with filter := "" })
  else
    { s with alive := false }

/-- The navigation inputs of `_handle_input`: `k`/up, `j`/down, HOME, END,
and the mouse events (wheel and click on a row). -/
inductive NavInput where
  | up
  | down
  | home
  | endKey
  | wheelDown
  | wheelUp
  | clickRow (row : Nat)
deriving DecidableEq

/-- The navigation branches of `_handle_input`: each adjusts only
`_selected_line`. -/
def handle_nav_input (i : NavInput) (s : ViewerState) : ViewerState :=
  match i with
  | .up => { s with selectedLine := s.selectedLine - 1 }
  | .down => { s with selectedLine := s.selectedLine + 1 }
  | .home => { s with selectedLine := 0 }
  | .endKey => { s with selectedLine := (s.items.length : Int) - 1 }
  | .wheelDown => { s with selectedLine := s.selectedLine - 1 }
  | .wheelUp => { s with selectedLine := s.selectedLine + 1 }
  | .clickRow row => { s with selectedLine := (row : Int) }

/-- `_move_selection_into_view`, parameterised by the `num_rows` property
(terminal height minus one); the method works with `num_rows - 1` to leave
one row for the status bar.  Clamps `_selected_line` into the item range and
re-derives `_scroll_offset` to keep the selection visible. -/
def move_selection_into_view (numRows : Int) (s : ViewerState) : ViewerState :=
  let nr := numRows - 1
  let sel := max 0 (min ((s.items.length : Int) - 1) s.selectedLine)
  let off :=
    if sel < s.scrollOffset then sel
    else if sel > nr + s.scrollOffset then sel - nr
    else s.scrollOffset
  { s with selectedLine := sel, scrollOffset := off }

/-- One session-loop cycle per input: the loop restores the viewport
invariant (`_move_selection_into_view`) at the top of each cycle, renders,
then handles one input. -/
def run_cycles (numRows : Int) (inputs : List NavInput) (s : ViewerState) :
    ViewerState :=
  inputs.foldl (fun st i => move_selection_into_view numRows (handle_nav_input i st))
    (move_selection_into_view numRows s)

/-- The `COLORS` table (hex strings; first entry is priority A, and so on). -/
def COLORS : List String :=
  ["#FF7733", "#F5D761", "#A4F54C", "#78C1F3", "#837CC5", "#CCCCCC"]

/-- The `COLORS_FALLBACK` table, as the numeric values of the named curses
colors `RED, YELLOW, GREEN, CYAN, BLUE, MAGENTA, WHITE`. -/
def COLORS_FALLBACK : List Nat :=
  [1, 3, 2, 6, 4, 5, 7]

/-- `_get_item_color_index`, parameterised by the palette configuration set
up in `_init_colors`: `get_priority_as_number(item, maximum=num_colors - 1)
* num_color_variants + num_reserved_colors`. -/
def get_item_color_index (numColors numColorVariants numReservedColors : Nat)
    (item : Item) : Nat :=
  get_priority_as_number item (numColors - 1) * numColorVariants + numReservedColors

/-- The color index in the adaptive (RGB-defining) palette:
`num_colors = len(COLORS)`, 3 variants per color, 3 reserved colors. -/
def adaptiveColorIndex (item : Item) : Nat :=
  get_item_color_index COLORS.length 3 3 item

/-- The color index in the fallback (named-color) palette:
`num_colors = len(COLORS_FALLBACK)`, 1 variant per color, 3 reserved
colors. -/
def fallbackColorIndex (item : Item) : Nat :=
  get_item_color_index COLORS_FALLBACK.length 1 3 item

/-- The viewport invariant of §4.4: with `H` visible item rows and `n`
visible items, the scroll offset lies in `[0, max 0 (n - H)]` and the
selection index in `[0, n - 1]` (staying at 0 when there are no items). -/
def viewport_invariant (H : Int) (n : Nat) (t : ViewerState) : Prop :=
  0 ≤ t.scrollOffset ∧ t.scrollOffset ≤ max 0 ((n : Int) - H) ∧
  0 ≤ t.selectedLine ∧ t.selectedLine ≤ max 0 ((n : Int) - 1) ∧
  (n = 0 → t.selectedLine = 0)

/-! ## Helper lemmas -/

/-- The empty needle occurs in every haystack (Python: `'' in s` is `True`). -/
theorem containsSub_nil (hay : List Char) : containsSub [] hay = true := by
  cases hay <;> simp [containsSub, matchesAt]

/-- `select_item_id`'s search returns `none` when no item has the id. -/
theorem findItemIndex_eq_none {itemId : Nat} {l : List Item}
    (h : ∀ it ∈ l, it.1 ≠ itemId) : findItemIndex itemId l = none := by
  induction l with
  | nil => rfl
  | cons hd tl ih =>
    simp only [findItemIndex]
    rw [if_neg (h hd (List.mem_cons_self hd tl)),
      ih fun it hit => h it (List.mem_cons_of_mem hd hit)]
    rfl

/-- `select_item_id`'s search finds an index holding an item with the
requested id whenever one is present. -/
theorem findItemIndex_mem {itemId : Nat} {l : List Item}
    (h : ∃ it ∈ l, it.1 = itemId) :
    ∃ idx it, findItemIndex itemId l = some idx ∧ l.get? idx = some it ∧
      it.1 = itemId := by
  induction l with
  | nil => simp at h
  | cons hd tl ih =>
    by_cases hhd : hd.1 = itemId
    · exact ⟨0, hd, by simp [findItemIndex, hhd], rfl, hhd⟩
    · obtain ⟨it, hit, hid⟩ := h
      rcases List.mem_cons.mp hit with heq | hmem
      · exact absurd (heq ▸ hid) hhd
      · obtain ⟨idx, it', h1, h2, h3⟩ := ih ⟨it, hmem, hid⟩
        exact ⟨idx + 1, it', by simp [findItemIndex, hhd, h1], by simpa using h2, h3⟩

/-- After `select_item_id i` on a state whose visible items contain an item
with id `i`, the selected id is `i`. -/
theorem select_item_id_mem {i : Nat} {s : ViewerState}
    (h : ∃ it ∈ s.items, it.1 = i) :
    selected_id (select_item_id (some i) s) = some i := by
  obtain ⟨idx, it, h1, h2, h3⟩ := findItemIndex_mem h
  have hne : s.items ≠ [] := by
    obtain ⟨it0, hit0, _⟩ := h
    intro hnil
    rw [hnil] at hit0
    simp at hit0
  simp only [select_item_id, h1]
  simp only [selected_id, selected_item]
  rw [if_neg hne]
  simp only [pyGet, Int.toNat_natCast, Int.natCast_nonneg, if_pos]
  rw [h2]
  simp [h3]

/-- An item read from line `j` (0-based) of the file appears in the
enumerated item list with id `k + j + 1`. -/
theorem mem_enumItemsFrom :
    ∀ (lines : List String) (k j : Nat) (ln : String),
      lines.get? j = some ln → (k + j + 1, ln) ∈ enumItemsFrom k lines := by
  intro lines
  induction lines with
  | nil => intro k j ln h; simp at h
  | cons hd tl ih =>
    intro k j ln h
    cases j with
    | zero =>
      simp only [List.get?, Option.some.injEq] at h
      subst h
      simp [enumItemsFrom]
    | succ j' =>
      have h' : tl.get? j' = some ln := by simpa using h
      have heq : k + (j' + 1) + 1 = k + 1 + j' + 1 := by omega
      simp only [enumItemsFrom]
      rw [heq]
      exact List.mem_cons_of_mem _ (ih (k + 1) j' ln h')

/-- An item whose 1-based line position is occupied in the file appears in
the sorted `_all_items`. -/
theorem mem_all_items_of {lines : List String} {i : Nat} {ln : String}
    (h : lines.get? (i - 1) = some ln) (hi : 1 ≤ i) :
    (i, ln) ∈ all_items_of lines := by
  have hmem := mem_enumItemsFrom lines 0 (i - 1) ln h
  have heq : 0 + (i - 1) + 1 = i := by omega
  rw [heq] at hmem
  exact (List.mem_insertionSort rankLE).mpr hmem

/-- An item of `_all_items` that matches the query appears in the visible
list. -/
theorem mem_visible_items_of {q : String} {all : List Item} {it : Item}
    (hm : it ∈ all) (hq : matchesQuery q it = true) :
    it ∈ visible_items_of q all := by
  unfold visible_items_of
  split
  · exact hm
  · exact List.mem_filter.mpr ⟨hm, hq⟩

/-- Saturation of `_get_item_color_index`: a rank at or beyond the color
count resolves to the last configured color's index. -/
theorem color_index_saturates (n v r : Nat) (item : Item)
    (hn : 1 ≤ n) (h : n ≤ rank item) :
    get_item_color_index n v r item = (n - 1) * v + r := by
  have h' := h
  unfold rank get_priority_as_number at h'
  unfold get_item_color_index get_priority_as_number
  cases hp : get_priority item with
  | none => simp only [hp]
  | some c =>
    simp only [hp] at h' ⊢
    have hd : n ≤ c.toNat - 'A'.toNat := le_trans h' (Nat.min_le_right _ _)
    have hmin : min (n - 1) (c.toNat - 'A'.toNat) = n - 1 :=
      Nat.min_eq_left (by omega)
    rw [hmin]

/-- One restoration step establishes the viewport invariant and leaves the
item lists untouched, given only that the incoming scroll offset is in
range. -/
theorem move_selection_into_view_spec (H : Int) (s : ViewerState)
    (hH : 1 ≤ H) (h0 : 0 ≤ s.scrollOffset)
    (h1 : s.scrollOffset ≤ max 0 ((s.items.length : Int) - H)) :
    (move_selection_into_view H s).items = s.items ∧
    viewport_invariant H s.items.length (move_selection_into_view H s) := by
  refine ⟨rfl, ?_⟩
  unfold move_selection_into_view viewport_invariant
  dsimp only
  split_ifs <;> refine ⟨?_, ?_, ?_, ?_, ?_⟩ <;> intros <;> omega

/-- Navigation inputs leave the item lists and the scroll offset alone. -/
theorem handle_nav_input_frame (i : NavInput) (s : ViewerState) :
    (handle_nav_input i s).items = s.items ∧
    (handle_nav_input i s).scrollOffset = s.scrollOffset := by
  cases i <;> exact ⟨rfl, rfl⟩

/-! ## Claims -/

/-- C4: bump-priority (`=`/`-`) on a selected item that has no `(X)` priority
marker does not complete normally: `get_bumped_priority` evaluates
`ord(None)`, which raises a `TypeError` (modelled as `none`); the exception
propagates out of `_handle_input` and `run` (which catches only
`KeyboardInterrupt`), terminating the session.  On an item that does carry a
marker the computation succeeds. -/
theorem c4_bump_priority_without_marker_raises :
    get_priority (3, "buy milk") = none ∧
    get_bumped_priority (3, "buy milk") 1 = none ∧
    get_bumped_priority (3, "buy milk") (-1) = none ∧
    get_bumped_priority (1, "(C) wash car") 1 = some 'B' := by
  decide

/-- C7: `_apply_filter`'s visible list is exactly the sublist of
`_all_items` whose raw text contains the query as a case-insensitive
substring (so order is preserved); the empty query yields all items
unchanged; and the query `"ctx"` matches a line containing `"@CTX-work"`. -/
theorem c7_filter_is_case_insensitive_substring :
    ∀ (q : String) (all : List Item),
      visible_items_of q all = all.filter (matchesQuery q) ∧
      visible_items_of "" all = all ∧
      matchesQuery "ctx" (1, "@CTX-work") = true := by
  intro q all
  refine ⟨?_, rfl, by decide⟩
  unfold visible_items_of
  split
  · next hq =>
    subst hq
    exact (List.filter_eq_self.mpr fun it _ => containsSub_nil (lower it.2)).symm
  · rfl

/-- C9: each navigation branch of `_handle_input` (up/down/home/end and the
mouse wheel/click branches) leaves `_scroll_offset` untouched and changes
nothing but `_selected_line`; scroll only ever changes in
`_move_selection_into_view`, which the session loop runs once per cycle. -/
theorem c9_navigation_only_moves_selection :
    ∀ (i : NavInput) (s : ViewerState),
      (handle_nav_input i s).scrollOffset = s.scrollOffset ∧
      handle_nav_input i s =
        { s with selectedLine := (handle_nav_input i s).selectedLine } := by
  intro i s
  cases i <;> exact ⟨rfl, rfl⟩

/-- C2 counterexample: with `all_items = [(1,"a"), (2,"ab")]`, filter `"b"`
(visible `[(2,"ab")]`, selection index 0, selected id 2), the cancel key
clears the filter inside `retain_selection`: the resulting selection index is
1 (not 0) and the previously selected id 2 is preserved, refuting "resets the
selection to the first visible item (index 0) and never preserves the
previously selected id". -/
theorem c2_counterexample_cancel_preserves_selection :
    selected_id
      { scrollOffset := 0, selectedLine := 0, alive := true,
        items := [(2, "ab")], allItems := [(1, "a"), (2, "ab")],
        filter := "b", filtering := false, itemsAlias := false } = some 2 ∧
    handle_cancel_key
      { scrollOffset := 0, selectedLine := 0, alive := true,
        items := [(2, "ab")], allItems := [(1, "a"), (2, "ab")],
        filter := "b", filtering := false, itemsAlias := false } =
      { scrollOffset := 0, selectedLine := 1, alive := true,
        items := [(1, "a"), (2, "ab")], allItems := [(1, "a"), (2, "ab")],
        filter := "", filtering := false, itemsAlias := true } := by
  decide

/-- C2 (amended): clearing the filter via the cancel key runs inside
`retain_selection`, so whenever the previously selected id occurs in
`_all_items` (always the case for a genuine selection) the id is preserved
and the selection index becomes that id's index in the unfiltered list —
only `_apply_filter`'s intermediate reset puts it at 0, and the restoration
immediately overrides it. -/
theorem c2_cancel_key_preserves_selected_id :
    ∀ (s : ViewerState) (i : Nat),
      s.filter ≠ "" → selected_id s = some i →
      (∃ it ∈ s.allItems, it.1 = i) →
      selected_id (handle_cancel_key s) = some i := by
  intro s i hf hsel hmem
  unfold handle_cancel_key
  rw [if_pos hf, hsel]
  apply select_item_id_mem
  simpa [apply_filter, visible_items_of] using hmem

/-- C2 witness: the amended theorem applied to the counterexample state. -/
theorem c2_cancel_key_witness :
    selected_id (handle_cancel_key
      { scrollOffset := 0, selectedLine := 0, alive := true,
        items := [(2, "ab")], allItems := [(1, "a"), (2, "ab")],
        filter := "b", filtering := false, itemsAlias := false }) = some 2 :=
  c2_cancel_key_preserves_selected_id _ 2 (by decide) (by decide)
    ⟨(2, "ab"), by decide, rfl⟩

/-- C3 counterexample: a failed reload does not retain the prior view.
`_read_todo_file` runs `self._items.clear()` before opening the file, so
when the file cannot be read the visible list (and, because `_items` aliases
`_all_items` after an unfiltered load, the full list too) is already empty
when the `IOError` propagates. -/
theorem c3_counterexample_failed_reload_clears_items :
    read_todo_file none
      { scrollOffset := 0, selectedLine := 0, alive := true,
        items := [(1, "(A) a")], allItems := [(1, "(A) a")],
        filter := "", filtering := false, itemsAlias := true } =
      Except.error
        { scrollOffset := 0, selectedLine := 0, alive := true,
          items := [], allItems := [],
          filter := "", filtering := false, itemsAlias := true } ∧
    ([] : List Item) ≠ [(1, "(A) a")] := by
  exact ⟨rfl, by decide⟩

/-- C3 (amended): when a reload cannot open/read the todo file, the state the
propagating error leaves behind has an empty visible list — so whenever the
session had any visible items, the prior in-memory view is lost, not
retained. -/
theorem c3_failed_reload_clears_view :
    ∀ (s e : ViewerState), read_todo_file none s = Except.error e →
      e.items = [] ∧ (s.items ≠ [] → e ≠ s) := by
  intro s e h
  simp only [read_todo_file, Except.error.injEq] at h
  subst h
  refine ⟨rfl, fun hne heq => hne ?_⟩
  have := congrArg ViewerState.items heq
  simpa using this.symm

/-- C3 witness: the amended theorem applied to a state with one visible
item. -/
theorem c3_failed_reload_witness :
    ViewerState.items
        { scrollOffset := 0, selectedLine := 0, alive := true,
          items := [], allItems := [],
          filter := "", filtering := false, itemsAlias := true } = [] ∧
      { scrollOffset := 0, selectedLine := 0, alive := true,
        items := [], allItems := [],
        filter := "", filtering := false, itemsAlias := true } ≠
        ({ scrollOffset := 0, selectedLine := 0, alive := true,
           items := [(1, "(A) a")], allItems := [(1, "(A) a")],
           filter := "", filtering := false, itemsAlias := true } : ViewerState) :=
  ⟨(c3_failed_reload_clears_view
      { scrollOffset := 0, selectedLine := 0, alive := true,
        items := [(1, "(A) a")], allItems := [(1, "(A) a")],
        filter := "", filtering := false, itemsAlias := true }
      { scrollOffset := 0, selectedLine := 0, alive := true,
        items := [], allItems := [],
        filter := "", filtering := false, itemsAlias := true } rfl).1,
    (c3_failed_reload_clears_view
      { scrollOffset := 0, selectedLine := 0, alive := true,
        items := [(1, "(A) a")], allItems := [(1, "(A) a")],
        filter := "", filtering := false, itemsAlias := true }
      { scrollOffset := 0, selectedLine := 0, alive := true,
        items := [], allItems := [],
        filter := "", filtering := false, itemsAlias := true } rfl).2 (by decide)⟩

/-- C10 counterexample: the "exactly when" fails in the right-to-left
reading: reloading `["a"]` with saved id 1 ends at selection index 0 even
though id 1 is present in the new visible set (it simply sits at index 0). -/
theorem c10_counterexample_id_present_at_index_zero :
    selected_id
      { scrollOffset := 0, selectedLine := 0, alive := true,
        items := [(1, "a")], allItems := [(1, "a")],
        filter := "", filtering := false, itemsAlias := true } = some 1 ∧
    (refresh_with ["a"]
      { scrollOffset := 0, selectedLine := 0, alive := true,
        items := [(1, "a")], allItems := [(1, "a")],
        filter := "", filtering := false, itemsAlias := true }).selectedLine = 0 ∧
    (refresh_with ["a"]
      { scrollOffset := 0, selectedLine := 0, alive := true,
        items := [(1, "a")], allItems := [(1, "a")],
        filter := "", filtering := false, itemsAlias := true }).items =
      [(1, "a")] := by
  decide

/-- C10 (amended): `select_item_id` with an id absent from the visible items
is a silent no-op, and `retain_selection` around a reload ends at selection
index 0 whenever the saved id is absent from the new visible set (because
`_apply_filter` resets the index to 0 and the restoration then does
nothing); it can also end at index 0 with the id present, when the id's new
index is 0. -/
theorem c10_absent_id_is_noop_and_reload_falls_back :
    ∀ (s : ViewerState) (i : Nat) (lines : List String),
      ((∀ it ∈ s.items, it.1 ≠ i) → select_item_id (some i) s = s) ∧
      (selected_id s = some i →
        (∀ it ∈ (read_todo_file_ok lines s).items, it.1 ≠ i) →
        (refresh_with lines s).selectedLine = 0) ∧
      (selected_id s = none → (refresh_with lines s).selectedLine = 0) := by
  intro s i lines
  have hnoop : ∀ (t : ViewerState) (j : Nat), (∀ it ∈ t.items, it.1 ≠ j) →
      select_item_id (some j) t = t := by
    intro t j hj
    simp only [select_item_id, findItemIndex_eq_none hj]
  refine ⟨hnoop s i, fun hsel habs => ?_, fun hsel => ?_⟩
  · unfold refresh_with
    rw [hsel, hnoop _ i habs]
    simp [read_todo_file_ok, apply_filter]
  · unfold refresh_with
    rw [hsel]
    simp [select_item_id, read_todo_file_ok, apply_filter]

/-- C1 counterexample: with an active filter the claim fails.  State: file
`["x1", "x2"]`, filter `"x"` (both lines visible), selection on id 2.
Reloading with `["x1", "y2"]` — line 2 still exists — drops line 2 from the
visible set (it no longer matches the filter), so the restored selection is
id 1, not id 2. -/
theorem c1_counterexample_filtered_reload_loses_id :
    selected_id
      { scrollOffset := 0, selectedLine := 1, alive := true,
        items := [(1, "x1"), (2, "x2")], allItems := [(1, "x1"), (2, "x2")],
        filter := "x", filtering := false, itemsAlias := true } = some 2 ∧
    (["x1", "y2"] : List String).get? (2 - 1) = some "y2" ∧
    selected_id (refresh_with ["x1", "y2"]
      { scrollOffset := 0, selectedLine := 1, alive := true,
        items := [(1, "x1"), (2, "x2")], allItems := [(1, "x1"), (2, "x2")],
        filter := "x", filtering := false, itemsAlias := true }) = some 1 ∧
    selected_id (refresh_with ["x1", "y2"]
      { scrollOffset := 0, selectedLine := 1, alive := true,
        items := [(1, "x1"), (2, "x2")], allItems := [(1, "x1"), (2, "x2")],
        filter := "x", filtering := false, itemsAlias := true }) ≠ some 2 := by
  decide

/-- C1 (amended): selection-by-id survives a reload (refresh or
post-dispatch re-read) whenever the new file still contains a line at the
previously selected id's 1-based position **and that line passes the active
filter** (always the case when no filter is active), even if the line's
content or priority rank changed. -/
theorem c1_selection_by_id_survives_reload :
    ∀ (s : ViewerState) (lines : List String) (i : Nat) (ln : String),
      selected_id s = some i →
      lines.get? (i - 1) = some ln → 1 ≤ i →
      matchesQuery s.filter (i, ln) = true →
      selected_id (refresh_with lines s) = some i := by
  intro s lines i ln hsel hget hi hmatch
  unfold refresh_with
  rw [hsel]
  apply select_item_id_mem
  refine ⟨(i, ln), ?_, rfl⟩
  show (i, ln) ∈ (read_todo_file_ok lines s).items
  have h2 : (i, ln) ∈ all_items_of lines := mem_all_items_of hget hi
  simpa [read_todo_file_ok, apply_filter] using mem_visible_items_of h2 hmatch

/-- C1 witness: the spec's own scenario — items
`[(1,"(A) a"), (2,"(B) b"), (3,"(C) c")]`, selection on id 2, reload with
line 2 replaced by `"(C) c"` (content and rank changed) — selection remains
id 2. -/
theorem c1_reload_witness :
    selected_id (refresh_with ["(A) a", "(C) c"]
      { scrollOffset := 0, selectedLine := 1, alive := true,
        items := [(1, "(A) a"), (2, "(B) b"), (3, "(C) c")],
        allItems := [(1, "(A) a"), (2, "(B) b"), (3, "(C) c")],
        filter := "", filtering := false, itemsAlias := true }) = some 2 :=
  c1_selection_by_id_survives_reload _ ["(A) a", "(C) c"] 2 "(C) c"
    (by decide) (by decide) (by decide) (by decide)

/-- C5: for any start state whose scroll offset is in range (in particular
the initial `0`), any number of session-loop cycles consuming navigation
inputs — including beyond-bounds ones — re-establishes the viewport
invariant: `scroll_offset ∈ [0, max 0 (N - H)]` and
`selected_index ∈ [0, N - 1]` (staying at 0 when `N = 0`), with the visible
list untouched.  Values are clamped by `_move_selection_into_view`, never
wrapped, and no step fails. -/
theorem c5_viewport_clamp :
    ∀ (H : Int) (inputs : List NavInput) (s : ViewerState),
      1 ≤ H → 0 ≤ s.scrollOffset →
      s.scrollOffset ≤ max 0 ((s.items.length : Int) - H) →
      (run_cycles H inputs s).items = s.items ∧
      viewport_invariant H s.items.length (run_cycles H inputs s) := by
  intro H inputs
  induction inputs with
  | nil => exact fun s hH h0 h1 => move_selection_into_view_spec H s hH h0 h1
  | cons i is ih =>
    intro s hH h0 h1
    have hstep := move_selection_into_view_spec H s hH h0 h1
    have hnav := handle_nav_input_frame i (move_selection_into_view H s)
    have h0' : 0 ≤ (handle_nav_input i (move_selection_into_view H s)).scrollOffset := by
      rw [hnav.2]; exact hstep.2.1
    have h1' : (handle_nav_input i (move_selection_into_view H s)).scrollOffset ≤
        max 0 (((handle_nav_input i (move_selection_into_view H s)).items.length : Int) - H) := by
      rw [hnav.2, hnav.1, hstep.1]; exact hstep.2.2.1
    obtain ⟨ha, hb⟩ := ih (handle_nav_input i (move_selection_into_view H s)) hH h0' h1'
    have hrun : run_cycles H (i :: is) s =
        run_cycles H is (handle_nav_input i (move_selection_into_view H s)) := rfl
    constructor
    · rw [hrun, ha, hnav.1, hstep.1]
    · rw [hrun]
      rwa [hnav.1, hstep.1] at hb

/-- C5 witness: a terminal with 3 visible rows, 5 items, and a beyond-bounds
input sequence (END, 99 ups, a click on row 99). -/
theorem c5_viewport_clamp_witness :
    (run_cycles 3 [NavInput.endKey, NavInput.up, NavInput.clickRow 99]
      { scrollOffset := 0, selectedLine := 0, alive := true,
        items := [(1, "a"), (2, "b"), (3, "c"), (4, "d"), (5, "e")],
        allItems := [(1, "a"), (2, "b"), (3, "c"), (4, "d"), (5, "e")],
        filter := "", filtering := false, itemsAlias := true }).items =
      ViewerState.items
        { scrollOffset := 0, selectedLine := 0, alive := true,
          items := [(1, "a"), (2, "b"), (3, "c"), (4, "d"), (5, "e")],
          allItems := [(1, "a"), (2, "b"), (3, "c"), (4, "d"), (5, "e")],
          filter := "", filtering := false, itemsAlias := true } ∧
    viewport_invariant 3 5
      (run_cycles 3 [NavInput.endKey, NavInput.up, NavInput.clickRow 99]
        { scrollOffset := 0, selectedLine := 0, alive := true,
          items := [(1, "a"), (2, "b"), (3, "c"), (4, "d"), (5, "e")],
          allItems := [(1, "a"), (2, "b"), (3, "c"), (4, "d"), (5, "e")],
          filter := "", filtering := false, itemsAlias := true }) :=
  c5_viewport_clamp 3 [NavInput.endKey, NavInput.up, NavInput.clickRow 99]
    { scrollOffset := 0, selectedLine := 0, alive := true,
      items := [(1, "a"), (2, "b"), (3, "c"), (4, "d"), (5, "e")],
      allItems := [(1, "a"), (2, "b"), (3, "c"), (4, "d"), (5, "e")],
      filter := "", filtering := false, itemsAlias := true }
    (by decide) (by decide) (by decide)

/-- C6: sorting by priority rank is stable and ascending: ranks are
non-decreasing along `_all_items`; for every rank the items of that rank
appear exactly as in the original file order; and every lettered priority
ranks strictly before an unprioritized item (which carries the sentinel
`sys.maxsize` rank, hence sorts last). -/
theorem c6_stable_sort_by_rank :
    ∀ (lines : List String),
      List.Pairwise (fun a b => rank a ≤ rank b) (all_items_of lines) ∧
      (∀ r : Nat,
        (all_items_of lines).filter (fun it => rank it == r) =
          (enumItems lines).filter (fun it => rank it == r)) ∧
      (∀ a b : Item, get_priority a ≠ none → get_priority b = none →
        rank a < rank b) := by
  intro lines
  refine ⟨List.sorted_insertionSort rankLE (enumItems lines), ?_, ?_⟩
  · intro r
    have hfsub : List.Sublist ((enumItems lines).filter (fun it => rank it == r))
        (enumItems lines) := List.filter_sublist _
    have hfpair : ((enumItems lines).filter (fun it => rank it == r)).Pairwise
        rankLE := by
      apply List.pairwise_of_forall_mem_list
      intro a ha b hb
      have hra : rank a = r := by simpa using (List.mem_filter.mp ha).2
      have hrb : rank b = r := by simpa using (List.mem_filter.mp hb).2
      unfold rankLE
      omega
    have hsub2 : List.Sublist ((enumItems lines).filter (fun it => rank it == r))
        (all_items_of lines) := List.sublist_insertionSort hfpair hfsub
    have hsub3 : List.Sublist ((enumItems lines).filter (fun it => rank it == r))
        ((all_items_of lines).filter (fun it => rank it == r)) := by
      have hmono := hsub2.filter (fun it => rank it == r)
      rwa [List.filter_eq_self.mpr
        (fun a ha => (List.mem_filter.mp ha).2)] at hmono
    have hperm : List.Perm ((all_items_of lines).filter (fun it => rank it == r))
        ((enumItems lines).filter (fun it => rank it == r)) :=
      (List.perm_insertionSort rankLE (enumItems lines)).filter _
    exact (hsub3.eq_of_length hperm.length_eq.symm).symm
  · intro a b ha hb
    unfold rank get_priority_as_number
    cases hpa : get_priority a with
    | none => exact absurd hpa ha
    | some c =>
      simp only [hpa, hb]
      have hc : c.toNat < 4294967296 := c.val.toBitVec.isLt
      have hA : Char.toNat 'A' = 65 := by decide
      have hms : sysMaxsize = 9223372036854775807 := by norm_num [sysMaxsize]
      omega

/-- C6 witness: the stability and ordering statements applied at the spec's
three-line file, and the lettered-before-unprioritized comparison discharged
at a concrete prioritized/unprioritized pair. -/
theorem c6_stable_sort_witness :
    List.Pairwise (fun a b => rank a ≤ rank b)
      (all_items_of ["(B) wash car", "(A) pay rent @home", "buy milk"]) ∧
    (all_items_of ["(B) wash car", "(A) pay rent @home", "buy milk"]).filter
        (fun it => rank it == sysMaxsize) =
      (enumItems ["(B) wash car", "(A) pay rent @home", "buy milk"]).filter
        (fun it => rank it == sysMaxsize) ∧
    rank (1, "(A) pay rent @home") < rank (3, "buy milk") :=
  ⟨(c6_stable_sort_by_rank ["(B) wash car", "(A) pay rent @home", "buy milk"]).1,
    (c6_stable_sort_by_rank ["(B) wash car", "(A) pay rent @home", "buy milk"]).2.1
      sysMaxsize,
    (c6_stable_sort_by_rank ["(B) wash car", "(A) pay rent @home", "buy milk"]).2.2
      (1, "(A) pay rent @home") (3, "buy milk") (by decide) (by decide)⟩

/-- C8: a priority rank at or beyond the configured color count resolves to
the last configured color's index, in both the adaptive palette
(6 configured colors, 3 variants, 3 reserved slots) and the fallback palette
(7 configured colors, 1 variant, 3 reserved slots); the mapping is a
function of the rank, hence deterministic. -/
theorem c8_color_saturation :
    ∀ item : Item,
      (COLORS.length ≤ rank item →
        adaptiveColorIndex item = (COLORS.length - 1) * 3 + 3) ∧
      (COLORS_FALLBACK.length ≤ rank item →
        fallbackColorIndex item = (COLORS_FALLBACK.length - 1) * 1 + 3) := by
  intro item
  constructor
  · exact fun h => color_index_saturates COLORS.length 3 3 item (by decide) h
  · exact fun h => color_index_saturates COLORS_FALLBACK.length 1 3 item (by decide) h

/-- C8 witness: an unprioritized item has rank `sys.maxsize`, beyond both
color counts; its index is the last color's in both palettes
(`(6-1)*3+3 = 18` adaptive, `(7-1)*1+3 = 9` fallback). -/
theorem c8_color_saturation_witness :
    adaptiveColorIndex (1, "buy milk") = 18 ∧
    fallbackColorIndex (1, "buy milk") = 9 :=
  ⟨(c8_color_saturation (1, "buy milk")).1 (by decide),
    (c8_color_saturation (1, "buy milk")).2 (by decide)⟩

/-- C10 witness: the amended theorem applied at concrete inputs — a no-op
`select_item_id 5` on a list without id 5, and a reload of `["a"]` that drops
the saved id 2. -/
theorem c10_noop_and_fallback_witness :
    select_item_id (some 5)
      { scrollOffset := 0, selectedLine := 1, alive := true,
        items := [(1, "a"), (2, "b")], allItems := [(1, "a"), (2, "b")],
        filter := "", filtering := false, itemsAlias := true } =
      { scrollOffset := 0, selectedLine := 1, alive := true,
        items := [(1, "a"), (2, "b")], allItems := [(1, "a"), (2, "b")],
        filter := "", filtering := false, itemsAlias := true } ∧
    (refresh_with ["a"]
      { scrollOffset := 0, selectedLine := 1, alive := true,
        items := [(1, "a"), (2, "b")], allItems := [(1, "a"), (2, "b")],
        filter := "", filtering := false, itemsAlias := true }).selectedLine = 0 :=
  ⟨(c10_absent_id_is_noop_and_reload_falls_back _ 5 ["a"]).1 (by decide),
    (c10_absent_id_is_noop_and_reload_falls_back _ 2 ["a"]).2.1 (by decide)
      (by decide)⟩

end Lsi
